import Mathlib

/-!
Verification of the FlexiThreadPool (C++11) core against its specification.

The development shallowly embeds the data model and operations of
`inc/threadpool.h` / `src/threadpool.cpp`:

* `FTP.Any` models the type-erased `Any` container (RTTI dispatch becomes a
  type-code match); `Any::cast_` throwing `"type is unmatch!"` becomes an
  `Except String` result.
* `FTP.Semaphore` / `FTP.Result` / `FTP.Task` model the result-delivery
  channel.  A blocking `Semaphore::wait` is modelled as an `Option`: `none`
  means the caller would block.
* `FTP.ThreadPool` models the pool state; its member functions are translated
  as pure state transformers.  Waiting on a condition variable with a
  predicate is modelled by evaluating the predicate on the state observed at
  the moment the wait returns (the lock is held at that point), so
  `submitTask`'s `wait_for(lock, 1s, pred)` becomes a branch on the predicate.
* Concurrency is modelled by a labelled small-step relation `FTP.Step` whose
  transitions are the lock-protected regions of the source: client calls
  (setters, `start`, `submitTask`), a worker taking a task, the cached-mode
  idle self-retire, the shutdown-time worker exit, the destructor's
  initiation, and the destructor's return (whose guard is the semantics of
  `exitCond_.wait(lock, pred)`: it returns only when the predicate holds).
-/

namespace FTP

/-- Type codes for the concrete types stored in `Any` in this development
(the C++ template is open-ended; `dynamic_cast` succeeds exactly on an exact
type match, which the code-equality test models). -/
inductive Ty
  | tint
  | tulong
  | tstr
deriving DecidableEq, Repr

/-- The Lean type denoted by a type code. -/
@[reducible] def Ty.denote : Ty → Type
  | .tint => Int
  | .tulong => Nat
  | .tstr => String

/-- The type-erased `Any` container: either default-constructed (`base_ ==
nullptr`) or holding a value of some concrete dynamic type. -/
inductive Any
  | empty : Any
  | mk : (τ : Ty) → τ.denote → Any

/-- Model of `Any::cast_<T>()`: `dynamic_cast` the stored `Derive` object to
`Derive<T>`; on mismatch (or a null `base_`) the cast yields `nullptr` and the
method throws `"type is unmatch!"`. -/
def Any.cast_ (τ : Ty) : Any → Except String τ.denote
  | .empty => .error "type is unmatch!"
  | .mk σ v => if h : σ = τ then .ok (h ▸ v) else .error "type is unmatch!"

/-- Model of `Semaphore`: a counter plus the `isExit_` flag (set by the destructor so
that `wait`/`post` become no-ops afterwards). -/
structure Semaphore where
  resLimit : Nat
  isExit : Bool
deriving DecidableEq, Repr

/-- A freshly constructed `Semaphore(0)`. -/
def Semaphore.init : Semaphore := ⟨0, false⟩

/-- Model of `Semaphore::post()`: no-op after exit, otherwise increment and notify. -/
def Semaphore.post (s : Semaphore) : Semaphore :=
  if s.isExit then s else { s with resLimit := s.resLimit + 1 }

/-- Model of `Semaphore::wait()`: returns immediately after exit; otherwise blocks
until the counter is positive, then decrements.  `none` means the caller
blocks (the counter is zero and nobody has posted). -/
def Semaphore.wait (s : Semaphore) : Option Semaphore :=
  if s.isExit then some s
  else if 0 < s.resLimit then some { s with resLimit := s.resLimit - 1 }
  else none

/-- The `Result` handle: value slot `any_`, semaphore `sem_`, shared pointer
to the task (modelled by the task's id), and the validity flag.  The
back-pointer registration `task_->setResult(this)` performed by the
constructor lives on the task side (`Task.result`). -/
structure Result where
  any : Any
  sem : Semaphore
  task : Option Nat
  isValid : Bool

/-- Model of `Result::Result(task, isValid)`: fresh slot and semaphore, shared task
reference, the given validity flag. -/
def Result.bind (t : Nat) (valid : Bool) : Result :=
  ⟨Any.empty, Semaphore.init, some t, valid⟩

/-- Model of `Result::setVal(any)`: store the produced value and post the semaphore. -/
def Result.setVal (r : Result) (a : Any) : Result :=
  { r with any := a, sem := r.sem.post }

/-- Model of `Result::get()`: an invalid handle returns the sentinel `""` immediately;
a valid one waits on the semaphore and then moves the value out (moving
leaves an empty holder).  `none` means the caller blocks. -/
def Result.get (r : Result) : Option (Any × Result) :=
  if r.isValid = false then some (Any.mk Ty.tstr "", r)
  else
    match r.sem.wait with
    | none => none
    | some sem' => some (r.any, { r with any := Any.empty, sem := sem' })

/-- Model of `Result::Result(Result &&other)`: the member-init list moves `task_` and
copies `isValid_`; `any_` and `sem_` of the destination are
default-constructed (they are not named in the init list), and the body then
sets `other.isValid_ = false`.  The moved-from `shared_ptr` is empty; the
source keeps its `any_` and `sem_`.  Returns (destination, moved-from source). -/
def Result.moveCtor (other : Result) : Result × Result :=
  (⟨Any.empty, Semaphore.init, other.task, other.isValid⟩,
   ⟨other.any, other.sem, none, false⟩)

/-- Model of `Task`: only the raw back-pointer `result_` matters for the core; the
virtual `run()` is user code, modelled as the value it would produce. -/
structure Task where
  result : Option Result

/-- Model of `Task::Task()`: `result_(nullptr)`. -/
def Task.init : Task := ⟨none⟩

/-- Model of `Task::exec()`: if `result_` is non-null, run the task and forward the
produced value through `setVal`; otherwise do nothing.  `rv` is the value the
virtual `run()` would return; the returned flag records whether `run()` was
invoked. -/
def Task.exec (t : Task) (rv : Any) : Task × Bool :=
  match t.result with
  | none => (t, false)
  | some r => (⟨some (r.setVal rv)⟩, true)

/-! ### The thread pool state and its member functions -/

/-- Constant `TASK_MAX_THRESHOLD = INT32_MAX`. -/
def TASK_MAX_THRESHOLD : Nat := 2147483647

/-- Constant `THREAD_MAX_THRESHHOLD = 1024`. -/
def THREAD_MAX_THRESHHOLD : Nat := 1024

/-- Constant `THREAD_IDLE_TIME = 2` (seconds). -/
def THREAD_IDLE_TIME : Nat := 2

/-- Model of `PoolMode`: `MODE_FIXED` or `MODE_CACHED`. -/
inductive PoolMode
  | fixed
  | cached
deriving DecidableEq, Repr

/-- The worker registry `std::unordered_map<size_t, std::unique_ptr<Thread>>`,
modelled as an association list from ids to entries; an entry is `true` for a
real `Thread` object and `false` for a null `unique_ptr` (as default-inserted
by `operator[]` on a missing key). -/
def Registry := List (Nat × Bool)
deriving DecidableEq, Repr

/-- Map lookup. -/
def regFind (l : Registry) (k : Nat) : Option Bool :=
  (List.lookup k l : Option Bool)

/-- Model of `unordered_map::emplace`: inserts only when the key is absent. -/
def regInsert (l : Registry) (k : Nat) (v : Bool) : Registry :=
  if regFind l k = none then List.concat l (k, v) else l

/-- Model of `unordered_map::erase` by key. -/
def regErase (l : Registry) (k : Nat) : Registry :=
  List.filter (fun p => p.1 != k) l

/-- The `ThreadPool` state.  `taskQue` holds task ids; `nextId` models the
global `Thread::generateId_` counter as this pool observes it; `dtorStarted`
records that the destructor has begun (no further client calls occur on the
object afterwards). -/
structure ThreadPool where
  threads : Registry
  initThreadSize : Nat
  curThreadSize : Nat
  threadIdelSize : Nat
  threadSizeThreshHold : Nat
  taskQue : List Nat
  taskSize : Nat
  taskQueMaxThreshHold : Nat
  poolMode : PoolMode
  isPoolRunning : Bool
  nextId : Nat
  dtorStarted : Bool
deriving DecidableEq, Repr

/-- Model of `ThreadPool::ThreadPool()` with the global `Thread::generateId_` counter
currently at `g` (0 for the first pool of the process). -/
def initialPool (g : Nat) : ThreadPool :=
  { threads := []
    initThreadSize := 0
    curThreadSize := 0
    threadIdelSize := 0
    threadSizeThreshHold := THREAD_MAX_THRESHHOLD
    taskQue := []
    taskSize := 0
    taskQueMaxThreshHold := TASK_MAX_THRESHOLD
    poolMode := PoolMode.fixed
    isPoolRunning := false
    nextId := g
    dtorStarted := false }

/-- Model of `ThreadPool::checkRunningState()`. -/
def ThreadPool.checkRunningState (s : ThreadPool) : Bool :=
  s.isPoolRunning

/-- Model of `ThreadPool::setPoolMode`: ignored while running. -/
def ThreadPool.setPoolMode (s : ThreadPool) (m : PoolMode) : ThreadPool :=
  if s.checkRunningState then s else { s with poolMode := m }

/-- Model of `ThreadPool::setTaskQueMaxThreshHold`: ignored while running. -/
def ThreadPool.setTaskQueMaxThreshHold (s : ThreadPool) (n : Nat) : ThreadPool :=
  if s.checkRunningState then s else { s with taskQueMaxThreshHold := n }

/-- Model of `ThreadPool::setThreadMaxThreshHold`: ignored while running; applies only
in cached mode. -/
def ThreadPool.setThreadMaxThreshHold (s : ThreadPool) (n : Nat) : ThreadPool :=
  if s.checkRunningState then s
  else if s.poolMode = PoolMode.cached then { s with threadSizeThreshHold := n }
  else s

/-- The elastic-scale block of `submitTask`: construct a `Thread` (taking the
next global id), `emplace` it, `threads_[threadId]->start()` (the key was just
inserted, so the lookup succeeds), and increment `curThreadSize_` and
`threadIdelSize_`. -/
def spawnWorker (s : ThreadPool) : ThreadPool :=
  { s with threads := regInsert s.threads s.nextId true
           nextId := s.nextId + 1
           curThreadSize := s.curThreadSize + 1
           threadIdelSize := s.threadIdelSize + 1 }

/-- The enqueue block of `submitTask`: `taskQue_.emplace(sp); taskSize_++;`
(followed in the source by `notEmpty_.notify_all()`). -/
def enqueueTask (s : ThreadPool) (t : Nat) : ThreadPool :=
  { s with taskQue := s.taskQue ++ [t], taskSize := s.taskSize + 1 }

/-- Model of `ThreadPool::submitTask(sp)`.  The `notFull_.wait_for(lock, 1s, pred)`
returns the value of `pred` at the moment it returns with the lock held; the
state argument is the pool state at that moment, so the wait becomes a branch
on `taskQue_.size() < taskQueMaxThreshHold_`.  On timeout with the predicate
still false, the task is not enqueued and an invalid handle is returned; on
success the task is enqueued, `taskSize_` incremented, `notEmpty_` notified,
the elastic-scale check performed, and a valid handle returned. -/
def ThreadPool.submitTask (s : ThreadPool) (t : Nat) : ThreadPool × Result :=
  if s.taskQue.length < s.taskQueMaxThreshHold then
    if (enqueueTask s t).poolMode = PoolMode.cached ∧
        (enqueueTask s t).threadIdelSize < (enqueueTask s t).taskSize ∧
        (enqueueTask s t).curThreadSize < (enqueueTask s t).threadSizeThreshHold then
      (spawnWorker (enqueueTask s t), Result.bind t true)
    else
      (enqueueTask s t, Result.bind t true)
  else
    (s, Result.bind t false)

/-- One iteration of the creation loop of `ThreadPool::start`: construct a
`Thread` (its id is the current value of the global counter, which is then
incremented) and `emplace` it keyed by that id. -/
def createOne (s : ThreadPool) (_i : Nat) : ThreadPool :=
  { s with threads := regInsert s.threads s.nextId true, nextId := s.nextId + 1 }

/-- One iteration of the launch loop of `ThreadPool::start`:
`threads_[i]->start(); threadIdelSize_++;`.  The index is the loop counter
`i`, not a generated thread id.  If key `i` is absent, `operator[]`
default-inserts a null `unique_ptr` and `->start()` dereferences null
(undefined behavior, modelled as `none`); likewise for a null entry. -/
def launchOne (s : ThreadPool) (i : Nat) : Option ThreadPool :=
  match regFind s.threads i with
  | some true => some { s with threadIdelSize := s.threadIdelSize + 1 }
  | some false => none
  | none => none

/-- Model of `ThreadPool::start(initThreadSize)`: set the running flag, record the
initial and current worker counts, create `n` workers keyed by their generated
ids, then launch `threads_[i]` for `i = 0, …, n-1`. -/
def ThreadPool.start (s : ThreadPool) (n : Nat) : Option ThreadPool :=
  let s1 : ThreadPool :=
    { s with isPoolRunning := true, initThreadSize := n, curThreadSize := n }
  let s2 := (List.range n).foldl createOne s1
  (List.range n).foldlM launchOne s2

/-! ### Small-step concurrency model -/

/-- Event labels for the pool's lock-protected regions. -/
inductive Ev
  | setMode (m : PoolMode)
  | setTaskMax (n : Nat)
  | setThreadMax (n : Nat)
  | start (n : Nat)
  | submit (t : Nat)
  | take
  | retire (id : Nat)
  | exitWorker (id : Nat)
  | shutdown
  | dtorReturn

/-- Labelled small-step relation over pool states.  Each constructor is one
lock-protected region of the source.  Client calls are guarded by
`dtorStarted = false` (no calls on a dying object).  `take` compresses a
worker's dequeue region (the `exec` outside the lock touches only the
`Result`, not the pool).  `retire` is the cached-mode idle-timeout self
retirement; its timing condition (`dur ≥ THREAD_IDLE_TIME` after a 1 s
`wait_for` timeout) is nondeterministic in the model, the state guards
(`taskQue` empty in the `while`, `curThreadSize_ > initThreadSize_`) are kept.
`exitWorker` is the exit path taken when the queue is empty and the running
flag is down.  `dtorReturn` is `exitCond_.wait(lock, pred)` returning: by
condition-variable semantics that happens only when the predicate
`threads_.size() == 0` holds. -/
inductive Step : ThreadPool → Ev → ThreadPool → Prop
  | setMode (s : ThreadPool) (m : PoolMode) :
      s.dtorStarted = false →
      Step s (Ev.setMode m) (s.setPoolMode m)
  | setTaskMax (s : ThreadPool) (n : Nat) :
      s.dtorStarted = false →
      Step s (Ev.setTaskMax n) (s.setTaskQueMaxThreshHold n)
  | setThreadMax (s : ThreadPool) (n : Nat) :
      s.dtorStarted = false →
      Step s (Ev.setThreadMax n) (s.setThreadMaxThreshHold n)
  | start (s : ThreadPool) (n : Nat) (s' : ThreadPool) :
      s.dtorStarted = false →
      s.start n = some s' →
      Step s (Ev.start n) s'
  | submit (s : ThreadPool) (t : Nat) :
      s.dtorStarted = false →
      Step s (Ev.submit t) (s.submitTask t).1
  | take (s : ThreadPool) :
      s.taskQue ≠ [] →
      Step s Ev.take { s with taskQue := s.taskQue.tail, taskSize := s.taskSize - 1 }
  | retire (s : ThreadPool) (id : Nat) :
      s.poolMode = PoolMode.cached →
      s.taskQue = [] →
      s.initThreadSize < s.curThreadSize →
      regFind s.threads id = some true →
      Step s (Ev.retire id)
        { s with threads := regErase s.threads id
                 curThreadSize := s.curThreadSize - 1
                 threadIdelSize := s.threadIdelSize - 1 }
  | exitWorker (s : ThreadPool) (id : Nat) :
      s.isPoolRunning = false →
      s.taskQue = [] →
      regFind s.threads id = some true →
      Step s (Ev.exitWorker id) { s with threads := regErase s.threads id }
  | shutdown (s : ThreadPool) :
      s.dtorStarted = false →
      Step s Ev.shutdown { s with isPoolRunning := false, dtorStarted := true }
  | dtorReturn (s : ThreadPool) :
      s.dtorStarted = true →
      s.threads = [] →
      Step s Ev.dtorReturn s

/-- Reachability from a freshly constructed pool (arbitrary initial value of
the global id counter). -/
inductive Reach : ThreadPool → Prop
  | init (g : Nat) : Reach (initialPool g)
  | step {s s' : ThreadPool} {e : Ev} : Reach s → Step s e s' → Reach s'

/-- The usage contract the specification prescribes for an event fired in
state `s`: `start(n)` keeps `n` within the configured worker ceiling, and
tasks are submitted only while the pool is running (configuration and start
precede submission). -/
def GoodEv (s : ThreadPool) : Ev → Prop
  | Ev.start n => n ≤ s.threadSizeThreshHold
  | Ev.submit _ => s.isPoolRunning = true
  | _ => True

/-- Reachability along traces that respect the usage contract `GoodEv`. -/
inductive ReachG : ThreadPool → Prop
  | init (g : Nat) : ReachG (initialPool g)
  | step {s s' : ThreadPool} {e : Ev} :
      ReachG s → Step s e s' → GoodEv s e → ReachG s'

/-- The counter invariant: the worker count is within the ceiling, at or
above the initial count, and zero before the pool has ever been started. -/
def PoolInv (s : ThreadPool) : Prop :=
  s.curThreadSize ≤ s.threadSizeThreshHold ∧
  s.initThreadSize ≤ s.curThreadSize ∧
  (s.isPoolRunning = false → s.dtorStarted = false → s.curThreadSize = 0)

/-! ### Helper lemmas about the operations -/

/-- The creation loop of `start` changes only the registry and the id
counter. -/
theorem createOne_foldl_fields (l : List Nat) : ∀ st : ThreadPool,
    (l.foldl createOne st).curThreadSize = st.curThreadSize ∧
    (l.foldl createOne st).initThreadSize = st.initThreadSize ∧
    (l.foldl createOne st).threadSizeThreshHold = st.threadSizeThreshHold ∧
    (l.foldl createOne st).isPoolRunning = st.isPoolRunning ∧
    (l.foldl createOne st).dtorStarted = st.dtorStarted := by
  induction l with
  | nil => intro st; exact ⟨rfl, rfl, rfl, rfl, rfl⟩
  | cons i l ih => intro st; simpa [createOne] using ih (createOne st i)

/-- A successful launch-loop iteration only bumps the idle counter. -/
theorem launchOne_fields {st st1 : ThreadPool} {i : Nat}
    (h : launchOne st i = some st1) :
    st1.curThreadSize = st.curThreadSize ∧
    st1.initThreadSize = st.initThreadSize ∧
    st1.threadSizeThreshHold = st.threadSizeThreshHold ∧
    st1.isPoolRunning = st.isPoolRunning ∧
    st1.dtorStarted = st.dtorStarted := by
  unfold launchOne at h
  cases hr : regFind st.threads i with
  | none => rw [hr] at h; exact Option.noConfusion h
  | some b =>
      rw [hr] at h
      cases b
      · exact Option.noConfusion h
      · injection h with h
        subst h
        exact ⟨rfl, rfl, rfl, rfl, rfl⟩

/-- The launch loop of `start`, when it succeeds, changes only the idle
counter. -/
theorem launchOne_foldlM_fields (l : List Nat) : ∀ st st' : ThreadPool,
    List.foldlM launchOne st l = some st' →
    st'.curThreadSize = st.curThreadSize ∧
    st'.initThreadSize = st.initThreadSize ∧
    st'.threadSizeThreshHold = st.threadSizeThreshHold ∧
    st'.isPoolRunning = st.isPoolRunning ∧
    st'.dtorStarted = st.dtorStarted := by
  induction l with
  | nil =>
      intro st st' h
      simp only [List.foldlM_nil] at h
      injection h with h
      subst h
      exact ⟨rfl, rfl, rfl, rfl, rfl⟩
  | cons i l ih =>
      intro st st' h
      simp only [List.foldlM_cons] at h
      cases hf : launchOne st i with
      | none => rw [hf] at h; exact Option.noConfusion h
      | some st1 =>
          rw [hf] at h
          obtain ⟨h1, h2, h3, h4, h5⟩ := ih st1 st' h
          obtain ⟨g1, g2, g3, g4, g5⟩ := launchOne_fields hf
          exact ⟨h1.trans g1, h2.trans g2, h3.trans g3, h4.trans g4, h5.trans g5⟩

/-- Counter-level characterization of a successful `start`. -/
theorem start_fields {s s' : ThreadPool} {n : Nat} (h : s.start n = some s') :
    s'.curThreadSize = n ∧ s'.initThreadSize = n ∧
    s'.threadSizeThreshHold = s.threadSizeThreshHold ∧
    s'.isPoolRunning = true ∧ s'.dtorStarted = s.dtorStarted := by
  unfold ThreadPool.start at h
  obtain ⟨h1, h2, h3, h4, h5⟩ := launchOne_foldlM_fields (List.range n) _ _ h
  obtain ⟨g1, g2, g3, g4, g5⟩ := createOne_foldl_fields (List.range n)
    { s with isPoolRunning := true, initThreadSize := n, curThreadSize := n }
  exact ⟨h1.trans g1, h2.trans g2, h3.trans g3, h4.trans g4, h5.trans g5⟩

/-- Counter-level characterization of `submitTask`: configuration, the
running flag and the initial count are untouched, and the worker count either
stays or (under the ceiling guard) grows by one. -/
theorem submit_effect (s : ThreadPool) (t : Nat) :
    ((s.submitTask t).1.initThreadSize = s.initThreadSize ∧
     (s.submitTask t).1.threadSizeThreshHold = s.threadSizeThreshHold ∧
     (s.submitTask t).1.isPoolRunning = s.isPoolRunning ∧
     (s.submitTask t).1.dtorStarted = s.dtorStarted) ∧
    ((s.submitTask t).1.curThreadSize = s.curThreadSize ∨
     ((s.submitTask t).1.curThreadSize = s.curThreadSize + 1 ∧
      s.curThreadSize < s.threadSizeThreshHold)) := by
  unfold ThreadPool.submitTask
  split
  · split
    · next hc => exact ⟨⟨rfl, rfl, rfl, rfl⟩, Or.inr ⟨rfl, hc.2.2⟩⟩
    · exact ⟨⟨rfl, rfl, rfl, rfl⟩, Or.inl rfl⟩
  · exact ⟨⟨rfl, rfl, rfl, rfl⟩, Or.inl rfl⟩

/-! ### Reachability invariants -/

/-- Every step keeps the worker count at or above the initial count (no usage
contract needed: the only decrement, self-retire, is guarded by
`curThreadSize_ > initThreadSize_`). -/
theorem step_initLe {s s' : ThreadPool} {e : Ev} (h : Step s e s')
    (hle : s.initThreadSize ≤ s.curThreadSize) :
    s'.initThreadSize ≤ s'.curThreadSize := by
  cases h with
  | setMode m hd =>
      unfold ThreadPool.setPoolMode
      split
      · exact hle
      · exact hle
  | setTaskMax n hd =>
      unfold ThreadPool.setTaskQueMaxThreshHold
      split
      · exact hle
      · exact hle
  | setThreadMax n hd =>
      unfold ThreadPool.setThreadMaxThreshHold
      split
      · exact hle
      · split
        · exact hle
        · exact hle
  | start n s2 hd hs =>
      obtain ⟨h1, h2, _, _, _⟩ := start_fields hs
      omega
  | submit t hd =>
      obtain ⟨⟨h1, _, _, _⟩, h2⟩ := submit_effect s t
      omega
  | take hq => exact hle
  | retire id hm hq hlt hf =>
      show s.initThreadSize ≤ s.curThreadSize - 1
      omega
  | exitWorker id hr hq hf => exact hle
  | shutdown hd => exact hle
  | dtorReturn hd ht => exact hle

/-- Every step along the usage contract preserves `PoolInv`. -/
theorem step_inv {s s' : ThreadPool} {e : Ev} (h : Step s e s')
    (hg : GoodEv s e) (hI : PoolInv s) : PoolInv s' := by
  obtain ⟨hceil, hinit, haux⟩ := hI
  cases h with
  | setMode m hd =>
      unfold ThreadPool.setPoolMode
      split
      · exact ⟨hceil, hinit, haux⟩
      · exact ⟨hceil, hinit, haux⟩
  | setTaskMax n hd =>
      unfold ThreadPool.setTaskQueMaxThreshHold
      split
      · exact ⟨hceil, hinit, haux⟩
      · exact ⟨hceil, hinit, haux⟩
  | setThreadMax n hd =>
      unfold ThreadPool.setThreadMaxThreshHold
      split
      · exact ⟨hceil, hinit, haux⟩
      · next hrun =>
        have hzero : s.curThreadSize = 0 := by
          refine haux ?_ hd
          simpa [ThreadPool.checkRunningState] using hrun
        split
        · refine ⟨?_, ?_, fun _ _ => hzero⟩
          · show s.curThreadSize ≤ n
            omega
          · exact hinit
        · exact ⟨hceil, hinit, haux⟩
  | start n s2 hd hs =>
      obtain ⟨h1, h2, h3, h4, h5⟩ := start_fields hs
      have hn : n ≤ s.threadSizeThreshHold := hg
      refine ⟨by omega, by omega, ?_⟩
      intro hr _
      rw [h4] at hr
      exact absurd hr (by simp)
  | submit t hd =>
      obtain ⟨⟨h1, h2, h3, h4⟩, h5⟩ := submit_effect s t
      have hrun : s.isPoolRunning = true := hg
      refine ⟨by omega, by omega, ?_⟩
      intro hr _
      rw [h3, hrun] at hr
      exact absurd hr (by simp)
  | take hq => exact ⟨hceil, hinit, haux⟩
  | retire id hm hq hlt hf =>
      refine ⟨?_, ?_, ?_⟩
      · show s.curThreadSize - 1 ≤ s.threadSizeThreshHold
        omega
      · show s.initThreadSize ≤ s.curThreadSize - 1
        omega
      · intro hr hd
        have := haux hr hd
        show s.curThreadSize - 1 = 0
        omega
  | exitWorker id hr hq hf =>
      exact ⟨hceil, hinit, haux⟩
  | shutdown hd =>
      refine ⟨hceil, hinit, ?_⟩
      intro _ hd'
      exact absurd hd' (by simp)
  | dtorReturn hd ht => exact ⟨hceil, hinit, haux⟩

/-- Lemma: `PoolInv` holds in every state reachable along the usage contract. -/
theorem reachG_inv {s : ThreadPool} (h : ReachG s) : PoolInv s := by
  induction h with
  | init g => exact ⟨by simp [initialPool, THREAD_MAX_THRESHHOLD], Nat.le_refl 0, fun _ _ => rfl⟩
  | step hs hstep hgood ih => exact step_inv hstep hgood ih

/-- The worker count stays at or above the initial count in every reachable
state, with no usage restriction. -/
theorem reach_initLe {s : ThreadPool} (h : Reach s) :
    s.initThreadSize ≤ s.curThreadSize := by
  induction h with
  | init g => exact Nat.le_refl 0
  | step hs hstep ih => exact step_initLe hstep ih

/-! ### Claim theorems -/

/-- C1: `submitTask` either enqueues the task and returns a valid handle
bound to it, or — when the not-full predicate is still false when the 1-second
wait returns — returns an invalid handle while leaving `taskQue` and
`taskSize` (and the whole pool state) unchanged; an invalid handle is the only
failure mode. -/
theorem submit_failure_mode (s : ThreadPool) (t : Nat) :
    (s.taskQue.length < s.taskQueMaxThreshHold →
      (s.submitTask t).2.isValid = true ∧
      (s.submitTask t).2.task = some t ∧
      (s.submitTask t).1.taskQue = s.taskQue ++ [t] ∧
      (s.submitTask t).1.taskSize = s.taskSize + 1) ∧
    (¬ s.taskQue.length < s.taskQueMaxThreshHold →
      (s.submitTask t).2 = Result.bind t false ∧
      (s.submitTask t).1 = s) ∧
    ((s.submitTask t).2.isValid = false →
      ¬ s.taskQue.length < s.taskQueMaxThreshHold) := by
  by_cases hq : s.taskQue.length < s.taskQueMaxThreshHold
  · refine ⟨fun _ => ?_, fun h => absurd hq h, fun hval => ?_⟩
    · unfold ThreadPool.submitTask
      rw [if_pos hq]
      split
      · exact ⟨rfl, rfl, rfl, rfl⟩
      · exact ⟨rfl, rfl, rfl, rfl⟩
    · exfalso
      unfold ThreadPool.submitTask at hval
      rw [if_pos hq] at hval
      revert hval
      split <;> simp [Result.bind]
  · refine ⟨fun h => absurd h hq, fun _ => ?_, fun _ => hq⟩
    unfold ThreadPool.submitTask
    rw [if_neg hq]
    exact ⟨rfl, rfl⟩

/-- Witness for C1: a submission into a fresh pool succeeds and appends to
the queue; a submission into a pool with queue bound 0 fails and leaves the
pool unchanged. -/
theorem submit_failure_mode_witness :
    (((initialPool 0).submitTask 42).2.isValid = true ∧
     ((initialPool 0).submitTask 42).2.task = some 42 ∧
     ((initialPool 0).submitTask 42).1.taskQue = [] ++ [42] ∧
     ((initialPool 0).submitTask 42).1.taskSize = 0 + 1) ∧
    ((({ initialPool 0 with taskQueMaxThreshHold := 0 } : ThreadPool).submitTask 7).2 =
       Result.bind 7 false ∧
     (({ initialPool 0 with taskQueMaxThreshHold := 0 } : ThreadPool).submitTask 7).1 =
       { initialPool 0 with taskQueMaxThreshHold := 0 }) :=
  ⟨(submit_failure_mode (initialPool 0) 42).1 (by decide),
   (submit_failure_mode { initialPool 0 with taskQueMaxThreshHold := 0 } 7).2.1
     (by decide)⟩

/-- C3: `Result::get` on an invalid handle returns the empty sentinel
value immediately (whatever the semaphore state, in particular when a wait
would block); on a valid handle it waits on the semaphore (blocking exactly
while the count is zero) and then moves the stored value out. -/
theorem result_get_spec (r : Result) :
    (r.isValid = false → r.get = some (Any.mk Ty.tstr "", r)) ∧
    (r.isValid = true → r.sem.isExit = false →
      (0 < r.sem.resLimit →
        r.get = some (r.any, { r with
          any := Any.empty,
          sem := { r.sem with resLimit := r.sem.resLimit - 1 } })) ∧
      (r.sem.resLimit = 0 → r.get = none)) := by
  constructor
  · intro hv
    simp [Result.get, hv]
  · intro hv hexit
    constructor
    · intro hp
      simp [Result.get, Semaphore.wait, hv, hexit, hp]
    · intro hz
      simp [Result.get, Semaphore.wait, hv, hexit, hz]

/-- Witness for C3: an invalid handle yields the sentinel even though its
semaphore count is zero; a valid, posted handle yields the stored value. -/
theorem result_get_spec_witness :
    Result.get ⟨Any.empty, ⟨0, false⟩, some 3, false⟩ =
      some (Any.mk Ty.tstr "", ⟨Any.empty, ⟨0, false⟩, some 3, false⟩) ∧
    Result.get ⟨Any.mk Ty.tulong 7, ⟨1, false⟩, some 3, true⟩ =
      some (Any.mk Ty.tulong 7, ⟨Any.empty, ⟨0, false⟩, some 3, true⟩) :=
  ⟨(result_get_spec ⟨Any.empty, ⟨0, false⟩, some 3, false⟩).1 rfl,
   ((result_get_spec ⟨Any.mk Ty.tulong 7, ⟨1, false⟩, some 3, true⟩).2 rfl rfl).1
     (by decide)⟩

/-- Counterexample to C4 as stated: move-constructing from a handle whose
value slot holds `7` and whose semaphore has been posted does *not* transfer
the value slot or the semaphore — the destination's slot is empty and its
semaphore count is 0. -/
theorem result_move_drops_value :
    (Result.moveCtor ⟨Any.mk Ty.tulong 7, ⟨1, false⟩, some 3, true⟩).1.any = Any.empty ∧
    (Result.moveCtor ⟨Any.mk Ty.tulong 7, ⟨1, false⟩, some 3, true⟩).1.sem.resLimit = 0 ∧
    ¬ (Result.moveCtor ⟨Any.mk Ty.tulong 7, ⟨1, false⟩, some 3, true⟩).1.any =
        Any.mk Ty.tulong 7 := by
  refine ⟨rfl, rfl, fun ha => ?_⟩
  simp [Result.moveCtor] at ha

/-- C4 (amended): the move constructor transfers the task reference and
the validity flag (the source is left `valid=false` with an empty task
reference), but the destination's value slot and semaphore are freshly
default-constructed (empty slot, count 0) rather than transferred; the
source keeps its own slot and semaphore. -/
theorem result_move_ctor_effects (other : Result) :
    ((Result.moveCtor other).1.task = other.task ∧
     (Result.moveCtor other).1.isValid = other.isValid) ∧
    ((Result.moveCtor other).2.isValid = false ∧
     (Result.moveCtor other).2.task = none) ∧
    ((Result.moveCtor other).1.any = Any.empty ∧
     (Result.moveCtor other).1.sem = Semaphore.init) ∧
    ((Result.moveCtor other).2.any = other.any ∧
     (Result.moveCtor other).2.sem = other.sem) :=
  ⟨⟨rfl, rfl⟩, ⟨rfl, rfl⟩, ⟨rfl, rfl⟩, ⟨rfl, rfl⟩⟩

/-- C5: on a successful submission the elastic-scale block runs — a new
worker is registered under the next generated id (and launched, which the
model folds into `spawnWorker` since the looked-up key was just inserted) and
both `curThreadSize_` and `threadIdelSize_` are incremented — if and only if
the pool is cached, the post-enqueue `taskSize_` exceeds `threadIdelSize_`,
and `curThreadSize_` is below the ceiling; otherwise registry, id counter and
both counters are unchanged. -/
theorem submit_spawn_iff (s : ThreadPool) (t : Nat)
    (hq : s.taskQue.length < s.taskQueMaxThreshHold) :
    (s.poolMode = PoolMode.cached ∧ s.threadIdelSize < s.taskSize + 1 ∧
        s.curThreadSize < s.threadSizeThreshHold →
      (s.submitTask t).1.threads = regInsert s.threads s.nextId true ∧
      (s.submitTask t).1.nextId = s.nextId + 1 ∧
      (s.submitTask t).1.curThreadSize = s.curThreadSize + 1 ∧
      (s.submitTask t).1.threadIdelSize = s.threadIdelSize + 1) ∧
    (¬ (s.poolMode = PoolMode.cached ∧ s.threadIdelSize < s.taskSize + 1 ∧
        s.curThreadSize < s.threadSizeThreshHold) →
      (s.submitTask t).1.threads = s.threads ∧
      (s.submitTask t).1.nextId = s.nextId ∧
      (s.submitTask t).1.curThreadSize = s.curThreadSize ∧
      (s.submitTask t).1.threadIdelSize = s.threadIdelSize) := by
  unfold ThreadPool.submitTask
  rw [if_pos hq]
  constructor
  · intro hc
    split
    · exact ⟨rfl, rfl, rfl, rfl⟩
    · next h => exact absurd hc h
  · intro hc
    split
    · next h => exact absurd h hc
    · exact ⟨rfl, rfl, rfl, rfl⟩

/-- Witness for C5: a running cached pool with no idle workers spawns on
submission; the same pool in fixed mode does not. -/
theorem submit_spawn_iff_witness :
    ((({ initialPool 0 with poolMode := PoolMode.cached, isPoolRunning := true } : ThreadPool).submitTask 9).1.threads =
       regInsert [] 0 true ∧
     (({ initialPool 0 with poolMode := PoolMode.cached, isPoolRunning := true } : ThreadPool).submitTask 9).1.nextId = 0 + 1 ∧
     (({ initialPool 0 with poolMode := PoolMode.cached, isPoolRunning := true } : ThreadPool).submitTask 9).1.curThreadSize = 0 + 1 ∧
     (({ initialPool 0 with poolMode := PoolMode.cached, isPoolRunning := true } : ThreadPool).submitTask 9).1.threadIdelSize = 0 + 1) ∧
    (((initialPool 0).submitTask 9).1.threads = [] ∧
     ((initialPool 0).submitTask 9).1.nextId = 0 ∧
     ((initialPool 0).submitTask 9).1.curThreadSize = 0 ∧
     ((initialPool 0).submitTask 9).1.threadIdelSize = 0) :=
  ⟨(submit_spawn_iff { initialPool 0 with poolMode := PoolMode.cached, isPoolRunning := true } 9 (by decide)).1
     (by decide),
   (submit_spawn_iff (initialPool 0) 9 (by decide)).2 (by decide)⟩

/-- C6: casting an `Any` constructed from a value of concrete type `T`
back at `T` returns that value; casting at any other type fails with the
type-mismatch error. -/
theorem any_cast_spec :
    (∀ (τ : Ty) (v : τ.denote), Any.cast_ τ (Any.mk τ v) = Except.ok v) ∧
    (∀ (σ τ : Ty) (w : σ.denote), σ ≠ τ →
      Any.cast_ τ (Any.mk σ w) = Except.error "type is unmatch!") := by
  constructor
  · intro τ v
    simp [Any.cast_]
  · intro σ τ w hne
    simp [Any.cast_, hne]

/-- Witness for C6: the round trip at `unsigned long long` and a mismatched
cast of a string-typed value at `unsigned long long`. -/
theorem any_cast_spec_witness :
    Any.cast_ Ty.tulong (Any.mk Ty.tulong 5050) = Except.ok 5050 ∧
    Any.cast_ Ty.tulong (Any.mk Ty.tstr "x") = Except.error "type is unmatch!" :=
  ⟨any_cast_spec.1 Ty.tulong 5050,
   any_cast_spec.2 Ty.tstr Ty.tulong "x" (by decide)⟩

/-- C9: every configuration setter invoked while the pool is running
leaves the state entirely unchanged; `setThreadMaxThreshHold` moreover leaves
the state unchanged whenever the regime is fixed (even before start), and
records the ceiling exactly in the not-running cached case. -/
theorem setters_ignored (s : ThreadPool) (m : PoolMode) (nq nt : Nat) :
    (s.isPoolRunning = true →
      s.setPoolMode m = s ∧ s.setTaskQueMaxThreshHold nq = s ∧
      s.setThreadMaxThreshHold nt = s) ∧
    (s.poolMode = PoolMode.fixed → s.setThreadMaxThreshHold nt = s) ∧
    (s.isPoolRunning = false → s.poolMode = PoolMode.cached →
      (s.setThreadMaxThreshHold nt).threadSizeThreshHold = nt) := by
  refine ⟨fun hr => ?_, fun hm => ?_, fun hr hm => ?_⟩
  · refine ⟨?_, ?_, ?_⟩ <;>
      simp [ThreadPool.setPoolMode, ThreadPool.setTaskQueMaxThreshHold,
        ThreadPool.setThreadMaxThreshHold, ThreadPool.checkRunningState, hr]
  · by_cases hr : s.isPoolRunning <;>
      simp [ThreadPool.setThreadMaxThreshHold, ThreadPool.checkRunningState, hr, hm]
  · simp [ThreadPool.setThreadMaxThreshHold, ThreadPool.checkRunningState, hr, hm]

/-- Witness for C9: setters on a running pool are no-ops; `setThreadMax` on a
stopped fixed pool is a no-op; on a stopped cached pool it records 99. -/
theorem setters_ignored_witness :
    (({ initialPool 0 with isPoolRunning := true } : ThreadPool).setPoolMode PoolMode.cached =
       { initialPool 0 with isPoolRunning := true } ∧
     ({ initialPool 0 with isPoolRunning := true } : ThreadPool).setTaskQueMaxThreshHold 5 =
       { initialPool 0 with isPoolRunning := true } ∧
     ({ initialPool 0 with isPoolRunning := true } : ThreadPool).setThreadMaxThreshHold 5 =
       { initialPool 0 with isPoolRunning := true }) ∧
    ((initialPool 0).setThreadMaxThreshHold 99 = initialPool 0) ∧
    (({ initialPool 0 with poolMode := PoolMode.cached } : ThreadPool).setThreadMaxThreshHold 99).threadSizeThreshHold = 99 :=
  ⟨(setters_ignored { initialPool 0 with isPoolRunning := true }
      PoolMode.cached 5 5).1 rfl,
   (setters_ignored (initialPool 0) PoolMode.cached 5 99).2.1 rfl,
   (setters_ignored { initialPool 0 with poolMode := PoolMode.cached }
      PoolMode.cached 5 99).2.2 rfl rfl⟩

/-- C2 (amended): along traces that respect the usage contract — every
`start(n)` keeps `n` within the configured worker ceiling and tasks are
submitted only while the pool is running — the worker count never exceeds the
ceiling; and in *every* reachable state, with no restriction, the worker
count stays at or above the initial count (start equates them, spawning
increments, and self-retire is guarded by `curThreadSize_ > initThreadSize_`). -/
theorem worker_count_bounds (s : ThreadPool) :
    (ReachG s → s.curThreadSize ≤ s.threadSizeThreshHold) ∧
    (Reach s → s.initThreadSize ≤ s.curThreadSize) :=
  ⟨fun h => (reachG_inv h).1, fun h => reach_initLe h⟩

/-- Witness for C2 (amended) at the freshly constructed pool. -/
theorem worker_count_bounds_witness :
    (initialPool 0).curThreadSize ≤ (initialPool 0).threadSizeThreshHold ∧
    (initialPool 0).initThreadSize ≤ (initialPool 0).curThreadSize :=
  ⟨(worker_count_bounds (initialPool 0)).1 (ReachG.init 0),
   (worker_count_bounds (initialPool 0)).2 (Reach.init 0)⟩

/-- Counterexample to C2 as stated: `start` does not clamp the requested
size against the ceiling, so the state reached by
`setPoolMode(MODE_CACHED); setThreadMaxThreshHold(1); start(2)` on a fresh
pool is reachable yet has `curThreadSize = 2` above the ceiling `1`. -/
theorem worker_ceiling_violated_reachable :
    Reach { threads := [(0, true), (1, true)], initThreadSize := 2, curThreadSize := 2, threadIdelSize := 2, threadSizeThreshHold := 1, taskQue := [], taskSize := 0, taskQueMaxThreshHold := 2147483647, poolMode := PoolMode.cached, isPoolRunning := true, nextId := 2, dtorStarted := false } ∧
    ({ threads := [(0, true), (1, true)], initThreadSize := 2, curThreadSize := 2, threadIdelSize := 2, threadSizeThreshHold := 1, taskQue := [], taskSize := 0, taskQueMaxThreshHold := 2147483647, poolMode := PoolMode.cached, isPoolRunning := true, nextId := 2, dtorStarted := false } : ThreadPool).threadSizeThreshHold <
      ({ threads := [(0, true), (1, true)], initThreadSize := 2, curThreadSize := 2, threadIdelSize := 2, threadSizeThreshHold := 1, taskQue := [], taskSize := 0, taskQueMaxThreshHold := 2147483647, poolMode := PoolMode.cached, isPoolRunning := true, nextId := 2, dtorStarted := false } : ThreadPool).curThreadSize := by
  refine ⟨?_, by decide⟩
  have h1 : Reach ((initialPool 0).setPoolMode PoolMode.cached) :=
    Reach.step (Reach.init 0) (Step.setMode (initialPool 0) PoolMode.cached rfl)
  have h2 : Reach (((initialPool 0).setPoolMode PoolMode.cached).setThreadMaxThreshHold 1) :=
    Reach.step h1 (Step.setThreadMax _ 1 (by decide))
  exact Reach.step h2 (Step.start _ 2 _ (by decide) (by decide))

/-- C7 at its failing input: with the global `Thread::generateId_`
counter at 1 (a `Thread` was constructed earlier in the process), `start(1)`
creates the worker under id 1 but then launches `threads_[0]`; `operator[]`
default-inserts a null entry and `->start()` dereferences it (modelled as
`none`), and the created worker is never launched.  With the counter at 0 the
bug is invisible: `start(2)` sets the running flag, records 2 as both counts,
registers and launches both workers, and leaves the idle counter at 2. -/
theorem start_launch_null_deref :
    ThreadPool.start (initialPool 1) 1 = none ∧
    ThreadPool.start (initialPool 0) 2 =
      some { threads := [(0, true), (1, true)], initThreadSize := 2, curThreadSize := 2, threadIdelSize := 2, threadSizeThreshHold := 1024, taskQue := [], taskSize := 0, taskQueMaxThreshHold := 2147483647, poolMode := PoolMode.fixed, isPoolRunning := true, nextId := 2, dtorStarted := false } :=
  ⟨rfl, rfl⟩

/-- C8: the destructor-return transition (the predicate wait on
`exitCond_`) fires only when the worker registry is empty and changes
nothing; the shutdown transition lowers the running flag (and in the source
broadcasts `notEmpty_`) without touching the registry; and each
shutdown-time worker exit happens with the running flag down and removes
exactly that worker from the registry (notifying `exitCond_`). -/
theorem shutdown_protocol (s s' : ThreadPool) :
    (Step s Ev.dtorReturn s' → s.threads = [] ∧ s' = s) ∧
    (Step s Ev.shutdown s' →
      s'.isPoolRunning = false ∧ s'.dtorStarted = true ∧ s'.threads = s.threads) ∧
    (∀ id, Step s (Ev.exitWorker id) s' →
      s.isPoolRunning = false ∧ s'.threads = regErase s.threads id) := by
  refine ⟨?_, ?_, ?_⟩
  · intro h
    cases h with
    | dtorReturn hd ht => exact ⟨ht, rfl⟩
  · intro h
    cases h with
    | shutdown hd => exact ⟨rfl, rfl, rfl⟩
  · intro id h
    cases h with
    | exitWorker j hr hq hf => exact ⟨hr, rfl⟩

/-- Witness for C8: concrete instances of the three transitions — the
destructor returning on an empty registry, shutdown on a fresh pool, and a
worker exiting from a stopped pool with one registered worker. -/
theorem shutdown_protocol_witness :
    (({ initialPool 0 with dtorStarted := true } : ThreadPool).threads = [] ∧
     ({ initialPool 0 with dtorStarted := true } : ThreadPool) =
       { initialPool 0 with dtorStarted := true }) ∧
    (({ initialPool 0 with isPoolRunning := false, dtorStarted := true } : ThreadPool).isPoolRunning = false ∧
     ({ initialPool 0 with isPoolRunning := false, dtorStarted := true } : ThreadPool).dtorStarted = true ∧
     ({ initialPool 0 with isPoolRunning := false, dtorStarted := true } : ThreadPool).threads = (initialPool 0).threads) ∧
    (({ initialPool 0 with threads := [(0, true)] } : ThreadPool).isPoolRunning = false ∧
     regErase [(0, true)] 0 = regErase [(0, true)] 0) :=
  ⟨(shutdown_protocol { initialPool 0 with dtorStarted := true }
      { initialPool 0 with dtorStarted := true }).1
      (Step.dtorReturn { initialPool 0 with dtorStarted := true } rfl rfl),
   (shutdown_protocol (initialPool 0)
      { initialPool 0 with isPoolRunning := false, dtorStarted := true }).2.1
      (Step.shutdown (initialPool 0) rfl),
   (shutdown_protocol { initialPool 0 with threads := [(0, true)] }
      { ({ initialPool 0 with threads := [(0, true)] } : ThreadPool) with
        threads := regErase [(0, true)] 0 }).2.2 0
      (Step.exitWorker { initialPool 0 with threads := [(0, true)] } 0 rfl rfl rfl)⟩

/-- C10: executing a task whose `result_` back-pointer is null (as after
`Task::Task()`) is a safe no-op: `run()` is not invoked and nothing is
written. -/
theorem exec_null_result_noop (rv : Any) :
    Task.init.result = none ∧ Task.exec Task.init rv = (Task.init, false) :=
  ⟨rfl, rfl⟩

end FTP
